import Mathlib

/-
Verification of the Zero-DCE low-light-enhancement frontend
(src/app/page.tsx): the WebSocket message handler, the connection
lifecycle with its reconnect timer, the frame-capture loop, and the
frame-statistics window.

The embedding is shallow: each event handler of the page becomes a pure
Lean function on an explicit state record; timestamps are integers
(milliseconds), JavaScript numbers appearing in the statistics are
rationals, and the single reconnect-timeout variable is modelled
together with the set of actually pending timers so that cancellation
behaviour is observable.
-/

/-- JavaScript Math.round: round half towards positive infinity. -/
def jsRound (q : ℚ) : ℤ :=
  (q + 1/2).floor

/-- The stats record exposed by the page (interface ProcessingStats). -/
structure ProcessingStats where
  fps : ℚ
  processingTime : ℚ
  frameCount : ℕ
deriving Repr, DecidableEq

/-- A parsed inbound WebSocket message, as discriminated by
`response.type` in ws.onmessage; `other` stands for any message whose
type is neither "enhanced" nor "error" (the handler ignores it). -/
inductive Response where
  | enhanced (image : String) (processing_time_ms : ℚ) (frame_count : ℕ)
  | error (message : String)
  | other
deriving Repr, DecidableEq

/-- State read and written by ws.onmessage: the display-canvas ref
(modelled as a Bool for whether the element exists), the comparison
ref, the frame counter and last-stats-time refs, the stats and error
React state, and a record of the images drawn to the display canvas. -/
structure PageState where
  displayCanvas : Bool
  isComparing : Bool
  frameCount : ℕ
  lastStatsTime : ℤ
  stats : ProcessingStats
  isConnected : Bool
  error : Option String
  drawn : List String
deriving Repr, DecidableEq

/-- The fps figure published by the stats block (lines 84-86 of
page.tsx): fps = (count / elapsed) * 1000 with elapsed in milliseconds,
rounded by Math.round(fps * 10) / 10 to one decimal place. -/
def reportedFps (count : ℕ) (elapsed : ℤ) : ℚ :=
  (jsRound (((count : ℚ) / (elapsed : ℚ)) * 1000 * 10) : ℚ) / 10

/-- The stats-window block of ws.onmessage (lines 80-92 of page.tsx):
with the frame counter already incremented, if at least 1000 ms elapsed
since the last report, publish the rounded fps, the message's
processing_time_ms and frame_count, then zero the counter and restamp
the window. -/
def statsUpdate (now : ℤ) (ptime : ℚ) (serverCount : ℕ) (s : PageState) :
    PageState :=
  let elapsed : ℤ := now - s.lastStatsTime
  if 1000 ≤ elapsed then
    { s with
      stats := { fps := reportedFps s.frameCount elapsed,
                 processingTime := ptime,
                 frameCount := serverCount },
      frameCount := 0,
      lastStatsTime := now }
  else s

/-- ws.onmessage (lines 58-100 of page.tsx) on an already-parsed
message.  An enhanced message is handled only when the display canvas
exists; in comparison mode it only bumps the frame counter; otherwise
the image is drawn to the display canvas, the counter is bumped and the
stats window is advanced.  An error message only sets the error state.
Anything else (including unparseable input, whose exception is caught)
leaves the state unchanged. -/
def handleMessage (now : ℤ) (s : PageState) (r : Response) : PageState :=
  match r with
  | Response.enhanced image ptime serverCount =>
    if s.displayCanvas then
      if s.isComparing then
        { s with frameCount := s.frameCount + 1 }
      else
        statsUpdate now ptime serverCount
          { s with drawn := s.drawn ++ [image],
                   frameCount := s.frameCount + 1 }
    else s
  | Response.error message => { s with error := some message }
  | Response.other => s

/-- WebSocket readyState constants. -/
def CONNECTING : ℕ := 0

/-- readyState OPEN. -/
def OPEN : ℕ := 1

/-- readyState CLOSING. -/
def CLOSING : ℕ := 2

/-- readyState CLOSED. -/
def CLOSED : ℕ := 3

/-- State of the connection-management effect (lines 41-132 of
page.tsx).  `pending` is the list of reconnect timers that are actually
scheduled (id, fire time); `reconnectTimeout` is the single variable
the code stores the latest timer handle in; `wsReady` is the readyState
of the current socket (none before any socket exists); `closeCalls`
counts invocations of ws.close(). -/
structure WsLifecycle where
  pending : List (ℕ × ℤ)
  reconnectTimeout : Option ℕ
  nextId : ℕ
  wsReady : Option ℕ
  isConnected : Bool
  isStreaming : Bool
  error : Option String
  closeCalls : ℕ
deriving Repr, DecidableEq

/-- `if (reconnectTimeout) clearTimeout(reconnectTimeout)`: cancel the
timer whose handle is stored in the variable, if any. -/
def clearReconnect (s : WsLifecycle) : WsLifecycle :=
  match s.reconnectTimeout with
  | some id => { s with pending := s.pending.filter (fun p => !(p.1 == id)) }
  | none => s

/-- connectWebSocket (lines 45-122): a new socket is created in the
CONNECTING state.  (The URL derivation is modelled separately by
`wsUrl`.) -/
def connectWebSocket (s : WsLifecycle) : WsLifecycle :=
  { s with wsReady := some CONNECTING }

/-- ws.onopen (lines 52-56): mark connected, clear the error banner. -/
def onOpen (s : WsLifecycle) : WsLifecycle :=
  { s with isConnected := true, error := none, wsReady := some OPEN }

/-- ws.onerror (lines 102-106): set the fixed error banner and mark
disconnected.  No reconnect timer is touched here. -/
def onError (s : WsLifecycle) : WsLifecycle :=
  { s with error := some "Connection error - is the backend running on port 8000?",
           isConnected := false }

/-- ws.onclose (lines 108-115): mark disconnected, stop streaming,
cancel the pending reconnect timer if the variable holds one, then
schedule a fresh reconnect 3000 ms from now and store its handle. -/
def onClose (now : ℤ) (s : WsLifecycle) : WsLifecycle :=
  let s1 := clearReconnect
    { s with isConnected := false, isStreaming := false,
             wsReady := some CLOSED }
  { s1 with pending := s1.pending ++ [(s1.nextId, now + 3000)],
            reconnectTimeout := some s1.nextId,
            nextId := s1.nextId + 1 }

/-- A scheduled timer fires: if the id is still pending it is removed
from the pending set and its callback connectWebSocket runs; a
cancelled timer never fires. -/
def timerFire (id : ℕ) (s : WsLifecycle) : WsLifecycle :=
  if s.pending.any (fun p => p.1 == id) then
    connectWebSocket
      { s with pending := s.pending.filter (fun p => !(p.1 == id)) }
  else s

/-- The effect cleanup (lines 126-131): cancel the reconnect timer held
in the variable, then close the socket only when its readyState is
OPEN. -/
def cleanup (s : WsLifecycle) : WsLifecycle :=
  let s1 := clearReconnect s
  if s1.wsReady = some OPEN then
    { s1 with wsReady := some CLOSING, closeCalls := s1.closeCalls + 1 }
  else s1

/-- The asynchronous events that drive the connection lifecycle. -/
inductive WsEvent where
  | evOpen
  | evError
  | evClose (now : ℤ)
  | evTimer (id : ℕ)
  | evCleanup
deriving Repr, DecidableEq

/-- Dispatch one lifecycle event. -/
def step (e : WsEvent) (s : WsLifecycle) : WsLifecycle :=
  match e with
  | WsEvent.evOpen => onOpen s
  | WsEvent.evError => onError s
  | WsEvent.evClose now => onClose now s
  | WsEvent.evTimer id => timerFire id s
  | WsEvent.evCleanup => cleanup s

/-- Run a sequence of lifecycle events. -/
def run (es : List WsEvent) (s : WsLifecycle) : WsLifecycle :=
  es.foldl (fun s e => step e s) s

/-- The state right after the effect mounts and calls connectWebSocket:
one socket connecting, no timer pending. -/
def initWs : WsLifecycle :=
  { pending := [], reconnectTimeout := none, nextId := 0,
    wsReady := some CONNECTING, isConnected := false,
    isStreaming := false, error := none, closeCalls := 0 }

/-- At most one reconnect timer is pending, and every pending timer has
the handle currently stored in the reconnectTimeout variable (so
clearTimeout on that variable really cancels whatever is pending). -/
def atMostOneTimer (s : WsLifecycle) : Prop :=
  s.pending.length ≤ 1 ∧ ∀ p ∈ s.pending, s.reconnectTimeout = some p.1

/-- wsProtocol (line 47): wss for an https page, ws otherwise. -/
def wsProtocol (pageProtocol : String) : String :=
  if pageProtocol = "https:" then "wss:" else "ws:"

/-- wsUrl (line 48): the connection target built from the page protocol
and window.location.hostname. -/
def wsUrl (pageProtocol hostname : String) : String :=
  wsProtocol pageProtocol ++ "//" ++ hostname ++ ":8000/ws/enhance"

/-- canvas.toDataURL for a JPEG whose base64 payload is b64. -/
def toDataURL (b64 : String) : String :=
  "data:image/jpeg;base64," ++ b64

/-- JSON.stringify of the outbound frame object (lines 235-238). -/
def frameMessage (imageData : String) : String :=
  "\x7b\"type\":\"frame\",\"image\":\"" ++ imageData ++ "\"\x7d"

/-- The mutable wsRef plus the wire: readyState of the current socket
(none when wsRef.current is null) and the payloads handed to
ws.send. -/
structure SocketRef where
  ws : Option ℕ
  transmitted : List String
deriving Repr, DecidableEq

/-- The send guard of captureFrame (lines 234-239): transmit only when
a socket exists and its readyState is OPEN; otherwise do nothing at
all. -/
def sendIfOpen (st : SocketRef) (payload : String) : SocketRef :=
  match st.ws with
  | some rs =>
    if rs = OPEN then { st with transmitted := st.transmitted ++ [payload] }
    else st
  | none => st

/-- The places inside captureFrame's try block where an exception can
be thrown: drawing the video to the hidden canvas, the compare-mode
draw to the display canvas, toDataURL encoding, or ws.send. -/
inductive FailPoint where
  | drawHidden
  | drawCompare
  | encode
  | send
deriving Repr, DecidableEq

/-- The environment one captureFrame step runs in: the video element
(present / paused / ended), availability of the two canvas 2d contexts,
the live comparison flag, whether the socket is open, the base64 bytes
toDataURL would produce, and an optional point at which the step
throws. -/
structure CaptureEnv where
  videoPresent : Bool
  videoPaused : Bool
  videoEnded : Bool
  hiddenCtx : Bool
  displayCtx : Bool
  isComparing : Bool
  wsOpen : Bool
  frameB64 : String
  failAt : Option FailPoint
deriving Repr, DecidableEq

/-- Observable outcome of one captureFrame step. -/
structure StepResult where
  rescheduled : Bool
  caught : Bool
  drewHidden : Bool
  drewCompare : Bool
  encoded : Option String
  sent : Option String
  frameSkipAfter : ℕ
deriving Repr, DecidableEq

/-- Frame-skip factor (line 195): 0, capture every frame. -/
def FRAME_SKIP_RATE : ℕ := 0

/-- One iteration of captureFrame (lines 197-245).  It returns without
rescheduling when the video is missing, paused or ended, and also when
either canvas context is unavailable; the frame-skip branch reschedules
early; any exception inside the try block is caught and the step still
reschedules via the requestAnimationFrame after the catch. -/
def captureFrame (env : CaptureEnv) (frameSkip : ℕ) : StepResult :=
  if env.videoPresent = false ∨ env.videoPaused = true ∨
      env.videoEnded = true then
    { rescheduled := false, caught := false, drewHidden := false,
      drewCompare := false, encoded := none, sent := none,
      frameSkipAfter := frameSkip }
  else if env.hiddenCtx = false ∨ env.displayCtx = false then
    { rescheduled := false, caught := false, drewHidden := false,
      drewCompare := false, encoded := none, sent := none,
      frameSkipAfter := frameSkip }
  else if frameSkip < FRAME_SKIP_RATE then
    { rescheduled := true, caught := false, drewHidden := false,
      drewCompare := false, encoded := none, sent := none,
      frameSkipAfter := frameSkip + 1 }
  else if env.failAt = some FailPoint.drawHidden then
    { rescheduled := true, caught := true, drewHidden := false,
      drewCompare := false, encoded := none, sent := none,
      frameSkipAfter := 0 }
  else if env.isComparing = true ∧ env.failAt = some FailPoint.drawCompare then
    { rescheduled := true, caught := true, drewHidden := true,
      drewCompare := false, encoded := none, sent := none,
      frameSkipAfter := 0 }
  else if env.failAt = some FailPoint.encode then
    { rescheduled := true, caught := true, drewHidden := true,
      drewCompare := env.isComparing, encoded := none, sent := none,
      frameSkipAfter := 0 }
  else if env.wsOpen = true ∧ env.failAt = some FailPoint.send then
    { rescheduled := true, caught := true, drewHidden := true,
      drewCompare := env.isComparing, encoded := some (toDataURL env.frameB64),
      sent := none, frameSkipAfter := 0 }
  else
    { rescheduled := true, caught := false, drewHidden := true,
      drewCompare := env.isComparing, encoded := some (toDataURL env.frameB64),
      sent := if env.wsOpen then some (frameMessage (toDataURL env.frameB64))
              else none,
      frameSkipAfter := 0 }

/-- A page state in comparison mode whose stats window is already
stale: 5 frames counted, last report at t = 0. -/
def comparePage : PageState :=
  { displayCanvas := true, isComparing := true, frameCount := 5,
    lastStatsTime := 0,
    stats := { fps := 0, processingTime := 0, frameCount := 0 },
    isConnected := true, error := none, drawn := [] }

/-- The same page state with comparison mode off. -/
def livePage : PageState :=
  { comparePage with isComparing := false }

/-- A page state whose display canvas element does not exist. -/
def noCanvasPage : PageState :=
  { comparePage with displayCanvas := false, isComparing := false }

/-- Lifecycle state of an established connection with no timer
pending. -/
def openConnected : WsLifecycle :=
  { initWs with wsReady := some OPEN, isConnected := true,
                isStreaming := true }

/-- A capture environment with an active video, both contexts, an open
socket and no failure. -/
def okEnv : CaptureEnv :=
  { videoPresent := true, videoPaused := false, videoEnded := false,
    hiddenCtx := true, displayCtx := true, isComparing := false,
    wsOpen := true, frameB64 := "QUJD", failAt := none }

/-- okEnv with the hidden-canvas 2d context unavailable. -/
def hiddenCtxFailEnv : CaptureEnv :=
  { okEnv with hiddenCtx := false }

/-- okEnv after the socket closed, with the display-canvas 2d context
unavailable. -/
def closedCtxFailEnv : CaptureEnv :=
  { okEnv with wsOpen := false, displayCtx := false }

/-- okEnv with an exception thrown during toDataURL encoding. -/
def encodeFailEnv : CaptureEnv :=
  { okEnv with failAt := some FailPoint.encode }

/-- okEnv after the socket closed. -/
def closedEnv : CaptureEnv :=
  { okEnv with wsOpen := false }

/-- A socket ref whose socket has closed. -/
def closedSocket : SocketRef :=
  { ws := some CLOSED, transmitted := [] }

/-- statsUpdate never touches the list of drawn images. -/
theorem statsUpdate_drawn (now : ℤ) (pt : ℚ) (sc : ℕ) (s : PageState) :
    (statsUpdate now pt sc s).drawn = s.drawn := by
  unfold statsUpdate
  dsimp only
  split <;> rfl


/-- When every pending timer holds the handle stored in the
reconnectTimeout variable, clearTimeout on that variable empties the
pending set and changes nothing else. -/
theorem clearReconnect_eq (s : WsLifecycle)
    (h : ∀ p ∈ s.pending, s.reconnectTimeout = some p.1) :
    clearReconnect s = { s with pending := [] } := by
  obtain ⟨pen, rt, ni, wr, ic, istr, er, cc⟩ := s
  simp only at h
  cases rt with
  | none =>
    cases pen with
    | nil => rfl
    | cons a l => exact absurd (h a (List.mem_cons_self a l)) (by simp)
  | some id =>
    show WsLifecycle.mk (pen.filter fun p => !(p.1 == id)) _ _ _ _ _ _ _ = _
    simp only [WsLifecycle.mk.injEq, and_true, true_and]
    rw [List.filter_eq_nil_iff]
    intro p hp
    have hid := h p hp
    simp only [Option.some.injEq] at hid
    simp [hid]

/-- Under the timer discipline, ws.onclose leaves exactly the freshly
scheduled timer pending, firing 3000 ms from now, with its handle
stored in the variable. -/
theorem onClose_resets_timer (now : ℤ) (s : WsLifecycle)
    (h : ∀ p ∈ s.pending, s.reconnectTimeout = some p.1) :
    (onClose now s).pending = [(s.nextId, now + 3000)] ∧
    (onClose now s).reconnectTimeout = some s.nextId ∧
    (onClose now s).isConnected = false ∧
    (onClose now s).isStreaming = false := by
  unfold onClose
  rw [clearReconnect_eq
    { s with isConnected := false, isStreaming := false,
             wsReady := some CLOSED } (fun p hp => h p hp)]
  exact ⟨rfl, rfl, rfl, rfl⟩

/-- Every lifecycle event preserves the timer discipline. -/
theorem step_atMostOne (e : WsEvent) (s : WsLifecycle)
    (h : atMostOneTimer s) : atMostOneTimer (step e s) := by
  cases e with
  | evOpen => exact h
  | evError => exact h
  | evClose now =>
    obtain ⟨hp, hr, -, -⟩ := onClose_resets_timer now s h.2
    show atMostOneTimer (onClose now s)
    unfold atMostOneTimer
    refine ⟨?_, ?_⟩
    · rw [hp]; exact le_refl 1
    · intro p hmem
      rw [hp] at hmem
      simp only [List.mem_singleton] at hmem
      rw [hr, hmem]
  | evTimer id =>
    show atMostOneTimer (timerFire id s)
    unfold timerFire
    split
    · exact ⟨le_trans (List.length_filter_le _ _) h.1,
        fun p hp => h.2 p (List.mem_of_mem_filter hp)⟩
    · exact h
  | evCleanup =>
    show atMostOneTimer (cleanup s)
    unfold cleanup
    dsimp only
    rw [clearReconnect_eq s h.2]
    split
    · exact ⟨Nat.zero_le 1, fun p hp => absurd hp (List.not_mem_nil p)⟩
    · exact ⟨Nat.zero_le 1, fun p hp => absurd hp (List.not_mem_nil p)⟩

/-- The timer discipline holds along every event trace. -/
theorem run_atMostOne (es : List WsEvent) (s : WsLifecycle)
    (h : atMostOneTimer s) : atMostOneTimer (run es s) := by
  induction es generalizing s with
  | nil => exact h
  | cons e es ih => exact ih (step e s) (step_atMostOne e s h)

/-- Claim C3 (amended).  On every close event the state becomes
disconnected and exactly one reconnect timer is left pending, firing
3000 ms later, any previously pending timer having been cancelled
first; along every event trace from the mount state at most one
reconnect timer is ever pending.  The error handler, however, only
marks the state disconnected and sets the banner: it schedules no
reconnect itself (scheduling happens solely in the close handler). -/
theorem connection_loss_reconnect_discipline :
    (∀ es : List WsEvent, atMostOneTimer (run es initWs)) ∧
    (∀ (s : WsLifecycle) (now : ℤ), atMostOneTimer s →
      (onClose now s).isConnected = false ∧
      (onClose now s).pending = [(s.nextId, now + 3000)] ∧
      atMostOneTimer (onClose now s)) ∧
    (∀ s : WsLifecycle,
      (onError s).isConnected = false ∧ (onError s).pending = s.pending) := by
  refine ⟨?_, ?_, ?_⟩
  · intro es
    exact run_atMostOne es initWs ⟨Nat.zero_le 1, fun p hp => absurd hp (List.not_mem_nil p)⟩
  · intro s now h
    obtain ⟨hp, hr, hc, -⟩ := onClose_resets_timer now s h.2
    exact ⟨hc, hp, step_atMostOne (WsEvent.evClose now) s h⟩
  · intro s
    exact ⟨rfl, rfl⟩

/-- Claim C3 witness: the discipline evaluated on concrete inputs. -/
theorem connection_loss_reconnect_discipline_witness :
    atMostOneTimer (run [WsEvent.evClose 0, WsEvent.evClose 500] initWs) ∧
    (onClose 5 initWs).pending = [(0, 5 + 3000)] :=
  ⟨connection_loss_reconnect_discipline.1 [WsEvent.evClose 0, WsEvent.evClose 500],
   (connection_loss_reconnect_discipline.2.1 initWs 5
     ⟨Nat.zero_le 1, fun p hp => absurd hp (List.not_mem_nil p)⟩).2.1⟩

/-- Claim C3 counterexample: an error event on the socket is a
connection-loss event, yet after the error handler runs from the mount
state no reconnect attempt is scheduled at all — the pending set stays
empty, refuting that every connection-loss event (close or error)
schedules exactly one reconnect. -/
theorem onError_schedules_no_reconnect :
    (onError initWs).isConnected = false ∧ (onError initWs).pending = [] :=
  ⟨rfl, rfl⟩

/-- Claim C6.  The claim is right and the code is wrong: the cleanup
itself does cancel the pending timer, close the open socket, and is
idempotent, but closing the socket makes its close event fire the
still-attached onclose handler, which schedules a fresh reconnect
timer — so a reconnect is pending after teardown, contradicting the
intended "cancel it entirely on intentional teardown". -/
theorem cleanup_then_close_schedules_reconnect :
    (cleanup openConnected).pending = [] ∧
    (cleanup openConnected).closeCalls = 1 ∧
    (cleanup openConnected).wsReady = some CLOSING ∧
    cleanup (cleanup openConnected) = cleanup openConnected ∧
    (onClose 100 (cleanup openConnected)).pending = [(0, 100 + 3000)] :=
  ⟨rfl, rfl, rfl, by decide, by decide⟩

/-- Claim C7.  An inbound error message surfaces its message string
verbatim as the user-visible error state and changes nothing else: the
connection flag, the exposed stats, the frame counter, the stats
timestamp and the drawn images are all untouched. -/
theorem error_message_surfaced_verbatim (now : ℤ) (s : PageState) (msg : String) :
    (handleMessage now s (Response.error msg)).error = some msg ∧
    (handleMessage now s (Response.error msg)).isConnected = s.isConnected ∧
    (handleMessage now s (Response.error msg)).stats = s.stats ∧
    (handleMessage now s (Response.error msg)).frameCount = s.frameCount ∧
    (handleMessage now s (Response.error msg)).lastStatsTime = s.lastStatsTime ∧
    (handleMessage now s (Response.error msg)).drawn = s.drawn :=
  ⟨rfl, rfl, rfl, rfl, rfl, rfl⟩

/-- Claim C9.  When the display canvas element does not exist, an
inbound enhanced message is ignored entirely: the handler returns the
state unchanged, so no decode starts, the frame counter stays put and
the stats are not updated. -/
theorem enhanced_ignored_without_canvas (now : ℤ) (s : PageState)
    (img : String) (pt : ℚ) (sc : ℕ) (h : s.displayCanvas = false) :
    handleMessage now s (Response.enhanced img pt sc) = s := by
  unfold handleMessage
  rw [h]
  simp

/-- Claim C9 witness. -/
theorem enhanced_ignored_without_canvas_witness :
    handleMessage 0 noCanvasPage (Response.enhanced "x" 1 2) = noCanvasPage :=
  enhanced_ignored_without_canvas 0 noCanvasPage "x" 1 2 rfl

/-- Claim C1 counterexample: an enhanced message arriving in comparison
mode with a stale stats window (elapsed 2000 ms at least 1000 ms) only
increments the frame counter — the exposed stats are not replaced and
the counter is not reset, refuting "this holds for every enhanced
message regardless of the compare flag". -/
theorem compare_mode_blocks_stats_report :
    comparePage.isComparing = true ∧
    (1000 : ℤ) ≤ 2000 - comparePage.lastStatsTime ∧
    (handleMessage 2000 comparePage (Response.enhanced "img" 50 7)).stats
      = comparePage.stats ∧
    (handleMessage 2000 comparePage (Response.enhanced "img" 50 7)).frameCount
      = 6 ∧
    (handleMessage 2000 comparePage (Response.enhanced "img" 50 7)).lastStatsTime
      = comparePage.lastStatsTime := by
  refine ⟨rfl, by decide, rfl, rfl, rfl⟩

/-- Claim C1 (amended).  For every inbound enhanced message handled
while the display canvas exists: the frame counter is incremented; when
the compare flag is false and at least 1000 ms elapsed since the last
report, the exposed stats are replaced with fps = count / elapsed
seconds rounded to one decimal place, the message's processing time and
the server-reported cumulative frame count, after which the counter is
reset to 0 and the window restamped to now; when the compare flag is
false but less than 1000 ms elapsed, only the counter grows; when the
compare flag is true, only the counter grows and the stats, window
timestamp and output surface are untouched. -/
theorem enhanced_stats_window (s : PageState) (now : ℤ) (img : String)
    (pt : ℚ) (sc : ℕ) (hc : s.displayCanvas = true) :
    (s.isComparing = true →
      handleMessage now s (Response.enhanced img pt sc) =
        { s with frameCount := s.frameCount + 1 }) ∧
    (s.isComparing = false → 1000 ≤ now - s.lastStatsTime →
      handleMessage now s (Response.enhanced img pt sc) =
        { s with
          drawn := s.drawn ++ [img],
          stats := { fps := reportedFps (s.frameCount + 1) (now - s.lastStatsTime),
                     processingTime := pt,
                     frameCount := sc },
          frameCount := 0,
          lastStatsTime := now }) ∧
    (s.isComparing = false → now - s.lastStatsTime < 1000 →
      handleMessage now s (Response.enhanced img pt sc) =
        { s with drawn := s.drawn ++ [img],
                 frameCount := s.frameCount + 1 }) := by
  refine ⟨fun hcmp => ?_, fun hcmp hel => ?_, fun hcmp hel => ?_⟩
  · simp [handleMessage, hc, hcmp]
  · simp [handleMessage, statsUpdate, hc, hcmp, hel]
  · have hnot : ¬((1000 : ℤ) ≤ now - s.lastStatsTime) := not_le.mpr hel
    simp [handleMessage, statsUpdate, hc, hcmp, hnot]

/-- Claim C1 witness: a report at 2000 ms with 6 frames gives fps 3. -/
theorem enhanced_stats_window_witness :
    handleMessage 2000 livePage (Response.enhanced "img" 50 7) =
      { livePage with
        drawn := livePage.drawn ++ ["img"],
        stats := { fps := reportedFps (livePage.frameCount + 1) (2000 - livePage.lastStatsTime),
                   processingTime := 50,
                   frameCount := 7 },
        frameCount := 0,
        lastStatsTime := 2000 } :=
  (enhanced_stats_window livePage 2000 "img" 50 7 rfl).2.1 rfl (by decide)

/-- Claim C5.  While the compare flag is true (and the display canvas
exists), an inbound enhanced message draws nothing to the output
surface though its frame is still counted; as soon as the flag is
false again, the next inbound enhanced message is drawn to the output
surface. -/
theorem compare_flag_gates_rendering (s : PageState) (now : ℤ)
    (img : String) (pt : ℚ) (sc : ℕ) (hc : s.displayCanvas = true) :
    (s.isComparing = true →
      (handleMessage now s (Response.enhanced img pt sc)).drawn = s.drawn ∧
      (handleMessage now s (Response.enhanced img pt sc)).frameCount
        = s.frameCount + 1) ∧
    (s.isComparing = false →
      (handleMessage now s (Response.enhanced img pt sc)).drawn
        = s.drawn ++ [img]) := by
  refine ⟨fun hcmp => ?_, fun hcmp => ?_⟩
  · simp [handleMessage, hc, hcmp]
  · simp only [handleMessage, hc, hcmp, Bool.false_eq_true, if_true, if_false,
      ite_false, ite_true]
    rw [statsUpdate_drawn]

/-- Claim C5 witness. -/
theorem compare_flag_gates_rendering_witness :
    (handleMessage 0 comparePage (Response.enhanced "e" 1 2)).drawn = [] ∧
    (handleMessage 0 livePage (Response.enhanced "e" 1 2)).drawn = ["e"] :=
  ⟨((compare_flag_gates_rendering comparePage 0 "e" 1 2 rfl).1 rfl).1,
   (compare_flag_gates_rendering livePage 0 "e" 1 2 rfl).2 rfl⟩

/-- Claim C2 counterexample: with the video active but the hidden
canvas 2d context unavailable (an encoding/draw error per the claim),
the step neither logs a caught exception nor reschedules — the loop
stops, refuting that the loop still reschedules on every
encoding/draw error and that a stopped/ended camera is the only exit
condition. -/
theorem ctx_unavailable_stops_loop :
    (captureFrame hiddenCtxFailEnv 0).rescheduled = false := by decide

/-- Claim C2 (amended).  A capture step gives up rescheduling exactly
when the video element is missing, paused or ended, or when one of the
two canvas 2d contexts is unavailable; in every other case — in
particular whenever an exception is thrown and caught inside the try
block — the step reschedules itself, so a single bad frame never
silently stops the loop once the contexts exist. -/
theorem capture_reschedule_exits (env : CaptureEnv) (k : ℕ) :
    ((captureFrame env k).rescheduled = false ↔
      (env.videoPresent = false ∨ env.videoPaused = true ∨
        env.videoEnded = true ∨
        env.hiddenCtx = false ∨ env.displayCtx = false)) ∧
    ((captureFrame env k).caught = true →
      (captureFrame env k).rescheduled = true) := by
  unfold captureFrame
  split_ifs <;> simp_all [FRAME_SKIP_RATE] <;> tauto

/-- Claim C2 witness: a step whose toDataURL encoding throws still
reschedules. -/
theorem capture_reschedule_exits_witness :
    (captureFrame encodeFailEnv 0).rescheduled = true :=
  (capture_reschedule_exits encodeFailEnv 0).2 (by decide)

/-- Claim C4.  While the socket is not OPEN, a send attempt is a silent
no-op: the guarded send is a total function that returns the state
unchanged (never throws, never queues), any sequence of send attempts
is likewise dropped independently with no buffering, and a capture
step taken with the socket closed transmits nothing. -/
theorem send_noop_when_not_open :
    (∀ (st : SocketRef) (payload : String), st.ws ≠ some OPEN →
      sendIfOpen st payload = st) ∧
    (∀ (st : SocketRef) (ps : List String), st.ws ≠ some OPEN →
      ps.foldl sendIfOpen st = st) ∧
    (∀ (env : CaptureEnv) (k : ℕ), env.wsOpen = false →
      (captureFrame env k).sent = none) := by
  have h1 : ∀ (st : SocketRef) (payload : String), st.ws ≠ some OPEN →
      sendIfOpen st payload = st := by
    intro st payload h
    obtain ⟨ws, tr⟩ := st
    cases ws with
    | none => rfl
    | some rs =>
      have hrs : rs ≠ OPEN := fun hrs => h (by rw [hrs])
      simp [sendIfOpen, hrs]
  refine ⟨h1, ?_, ?_⟩
  · intro st ps h
    induction ps with
    | nil => rfl
    | cons p ps ih =>
      rw [List.foldl_cons, h1 st p h]
      exact ih
  · intro env k h
    unfold captureFrame
    split_ifs <;> simp_all

/-- Claim C4 witness. -/
theorem send_noop_when_not_open_witness :
    sendIfOpen closedSocket "payload" = closedSocket ∧
    (captureFrame closedEnv 0).sent = none :=
  ⟨send_noop_when_not_open.1 closedSocket "payload" (by decide),
   send_noop_when_not_open.2.2 closedEnv 0 rfl⟩

/-- Claim C8.  Every connection attempt targets
ws(s)://hostname:8000/ws/enhance with the scheme mirroring the page's
own transport security, and every frame a capture step transmits is
serialized as a JSON object of type "frame" whose image field is the
base64 data-URI-encoded JPEG produced by toDataURL. -/
theorem connection_target_and_frame_wire_format :
    wsUrl "https:" "example.com" = "wss://example.com:8000/ws/enhance" ∧
    wsUrl "http:" "example.com" = "ws://example.com:8000/ws/enhance" ∧
    (∀ p host : String, wsUrl p host =
      (if p = "https:" then "wss:" else "ws:") ++ "//" ++ host
        ++ ":8000/ws/enhance") ∧
    (∀ (env : CaptureEnv) (k : ℕ),
      env.videoPresent = true → env.videoPaused = false →
      env.videoEnded = false → env.hiddenCtx = true →
      env.displayCtx = true → env.failAt = none → env.wsOpen = true →
      (captureFrame env k).sent =
        some ("\x7b\"type\":\"frame\",\"image\":\""
          ++ ("data:image/jpeg;base64," ++ env.frameB64) ++ "\"\x7d")) := by
  refine ⟨by decide, by decide, fun p host => rfl, ?_⟩
  intro env k hv hp he hh hd hf hw
  unfold captureFrame
  split_ifs <;> simp_all [frameMessage, toDataURL, FRAME_SKIP_RATE]

/-- Claim C8 witness. -/
theorem connection_target_and_frame_wire_format_witness :
    (captureFrame okEnv 0).sent =
      some ("\x7b\"type\":\"frame\",\"image\":\""
        ++ ("data:image/jpeg;base64," ++ "QUJD") ++ "\"\x7d") :=
  connection_target_and_frame_wire_format.2.2.2 okEnv 0
    rfl rfl rfl rfl rfl rfl rfl

/-- Claim C10 counterexample: a capture step taken after the socket
closed, with the video active but the display-canvas 2d context
unavailable, neither draws nor encodes nor reschedules — so it is not
the case that every post-close step draws, encodes and reschedules,
nor that a paused/ended video is the only exit. -/
theorem post_close_ctx_unavailable_step_stops :
    (captureFrame closedCtxFailEnv 0).drewHidden = false ∧
    (captureFrame closedCtxFailEnv 0).encoded = none ∧
    (captureFrame closedCtxFailEnv 0).rescheduled = false := by decide

/-- Claim C10 (amended).  Connection loss does not stop the capture
loop: a step taken with the video active, both canvas contexts
available and no exception still draws and encodes the frame and
reschedules itself while the socket is not open, the encoded frame
being dropped at the send guard; and the step's decision to reschedule
never depends on the socket state (the streaming flag and connection
state are not read by its exit condition). -/
theorem capture_loop_survives_disconnect (env : CaptureEnv) (k : ℕ)
    (hv : env.videoPresent = true) (hp : env.videoPaused = false)
    (he : env.videoEnded = false) (hh : env.hiddenCtx = true)
    (hd : env.displayCtx = true) (hf : env.failAt = none)
    (hw : env.wsOpen = false) :
    (captureFrame env k).drewHidden = true ∧
    (captureFrame env k).encoded = some (toDataURL env.frameB64) ∧
    (captureFrame env k).sent = none ∧
    (captureFrame env k).rescheduled = true ∧
    (∀ b : Bool, (captureFrame { env with wsOpen := b } k).rescheduled
      = (captureFrame env k).rescheduled) := by
  obtain ⟨vp, vpa, ve, hctx, dctx, ic, wo, fb, fa⟩ := env
  simp only at hv hp he hh hd hf hw
  subst hv hp he hh hd hf hw
  refine ⟨?_, ?_, ?_, ?_, ?_⟩ <;>
    first
      | (intro b; cases b <;> simp [captureFrame, FRAME_SKIP_RATE])
      | simp [captureFrame, FRAME_SKIP_RATE]

/-- Claim C10 witness. -/
theorem capture_loop_survives_disconnect_witness :
    (captureFrame closedEnv 0).drewHidden = true ∧
    (captureFrame closedEnv 0).sent = none ∧
    (captureFrame closedEnv 0).rescheduled = true :=
  ⟨(capture_loop_survives_disconnect closedEnv 0
      rfl rfl rfl rfl rfl rfl rfl).1,
   (capture_loop_survives_disconnect closedEnv 0
      rfl rfl rfl rfl rfl rfl rfl).2.2.1,
   (capture_loop_survives_disconnect closedEnv 0
      rfl rfl rfl rfl rfl rfl rfl).2.2.2.1⟩
